import Mathlib

/-!
Shallow embedding of the WhatCMS enrichment pipeline
(`src/whatcms_client.py`, `src/data_enricher.py`).

Python values flowing through the JSON-handling code are modelled by the
`Json` type below; Python exceptions are modelled with `Except String`;
the mutation of a `WhatCMSResponse` dataclass is modelled by explicit
state passing.  Machine behaviour that the claims depend on (str.join,
str.replace, str.lower, dict.get, truthiness, f-string formatting of
ints and None) is reproduced by the `py*` helpers.
-/

/-- A Python value as it can appear after `response.json()`:
`None`, `str`, `int`, `bool`, `list`, `dict`. -/
inductive Json where
  | null
  | str (s : String)
  | num (n : Int)
  | bool (b : Bool)
  | arr (xs : List Json)
  | obj (kvs : List (String × Json))

/-- Python type name, as it appears in exception messages. -/
def pyTypeName : Json → String
  | Json.null => "NoneType"
  | Json.str _ => "str"
  | Json.num _ => "int"
  | Json.bool _ => "bool"
  | Json.arr _ => "list"
  | Json.obj _ => "dict"

/-- Python truthiness of a value (`if version:` in the source). -/
def pyTruthy : Json → Bool
  | Json.null => false
  | Json.str s => !(s == "")
  | Json.num n => !(n == 0)
  | Json.bool b => b
  | Json.arr xs => !xs.isEmpty
  | Json.obj kvs => !kvs.isEmpty

/-- Decimal digit character. -/
def decimalDigit (n : Nat) : Char := Char.ofNat (48 + n)

/-- Decimal digits of a natural number, fuel-structured so the kernel can
evaluate it; the fuel is always at least the number of digits. -/
def natDigits : Nat → Nat → List Char
  | 0, _ => []
  | fuel + 1, n =>
    if n < 10 then [decimalDigit n]
    else natDigits fuel (n / 10) ++ [decimalDigit (n % 10)]

/-- Python `str(n)` for a nonnegative integer (e.g. an HTTP status code). -/
def pyNatStr (n : Nat) : String := String.mk (natDigits (n + 1) n)

/-- Python `str(n)` for an integer. -/
def pyIntStr : Int → String
  | Int.ofNat n => pyNatStr n
  | Int.negSucc n => "-" ++ pyNatStr (n + 1)

mutual

/-- Python `repr` of a value (string escaping inside `repr` of a `str` is
not modelled). -/
def pyRepr : Json → String
  | Json.null => "None"
  | Json.str s => "\x27" ++ s ++ "\x27"
  | Json.num n => pyIntStr n
  | Json.bool b => if b then "True" else "False"
  | Json.arr xs => "[" ++ pyReprItems xs ++ "]"
  | Json.obj kvs => "\x7b" ++ pyReprPairs kvs ++ "\x7d"

/-- Comma-separated `repr`s of list items. -/
def pyReprItems : List Json → String
  | [] => ""
  | [x] => pyRepr x
  | x :: rest => pyRepr x ++ ", " ++ pyReprItems rest

/-- Comma-separated `key: value` pairs of a dict `repr`. -/
def pyReprPairs : List (String × Json) → String
  | [] => ""
  | [(k, v)] => "\x27" ++ k ++ "\x27: " ++ pyRepr v
  | (k, v) :: rest => "\x27" ++ k ++ "\x27: " ++ pyRepr v ++ ", " ++ pyReprPairs rest

end

/-- Python `str()` of a value, as used by f-string interpolation. -/
def pyStr : Json → String
  | Json.str s => s
  | j => pyRepr j

/-- Python `d.get(key, default)`: succeeds on a `dict`, raises
`AttributeError` on every other receiver (modelled as `Except.error` with
the CPython message). -/
def pyGet (j : Json) (key : String) (dflt : Json) : Except String Json :=
  match j with
  | Json.obj kvs => Except.ok ((kvs.lookup key).getD dflt)
  | _ =>
    Except.error ("\x27" ++ pyTypeName j ++ "\x27 object has no attribute \x27get\x27")

/-- Elementwise check used by `str.join` on a list: every item must be a
`str`, otherwise a `TypeError` with the item index is raised. -/
def pyJoinItems : Nat → List Json → Except String (List String)
  | _, [] => Except.ok []
  | i, x :: rest =>
    match x with
    | Json.str s =>
      match pyJoinItems (i + 1) rest with
      | Except.ok ss => Except.ok (s :: ss)
      | Except.error e => Except.error e
    | _ =>
      Except.error
        ("sequence item " ++ pyNatStr i ++ ": expected str instance, " ++
          pyTypeName x ++ " found")

/-- Python `sep.join(it)`: joins a list of strings, the characters of a
string, or the keys of a dict; raises `TypeError` on a non-iterable. -/
def pyJoin (sep : String) (it : Json) : Except String String :=
  match it with
  | Json.str s =>
    Except.ok (String.intercalate sep (s.data.map (fun c => String.mk [c])))
  | Json.arr xs =>
    match pyJoinItems 0 xs with
    | Except.ok ss => Except.ok (String.intercalate sep ss)
    | Except.error e => Except.error e
  | Json.obj kvs => Except.ok (String.intercalate sep (kvs.map Prod.fst))
  | _ => Except.error "can only join an iterable"

/-- ASCII lowercasing of one character, as `str.lower` does on ASCII. -/
def pyCharLower (c : Char) : Char :=
  if 65 ≤ c.toNat ∧ c.toNat ≤ 90 then Char.ofNat (c.toNat + 32) else c

/-- Python `s.lower()` (restricted to its ASCII behaviour). -/
def pyLower (s : String) : String := String.mk (s.data.map pyCharLower)

/-- Worker for `pyReplace`, fuel-structured over the length of the subject
string so the kernel can evaluate it; replaces non-overlapping occurrences
left to right, exactly as Python `str.replace`. -/
def pyReplaceLoop (old new : List Char) : Nat → List Char → List Char
  | _, [] => []
  | 0, s => s
  | fuel + 1, c :: rest =>
    if old ≠ [] ∧ old.isPrefixOf (c :: rest) then
      new ++ pyReplaceLoop old new fuel ((c :: rest).drop old.length)
    else
      c :: pyReplaceLoop old new fuel rest

/-- Python `s.replace(old, new)` (for the non-empty patterns the source uses). -/
def pyReplace (s old new : String) : String :=
  String.mk (pyReplaceLoop old.data new.data s.data.length s.data)

/-- The `WhatCMSResponse` dataclass of `src/whatcms_client.py`.  The
`whatcms_link` field is declared `str` but receives `data.get("request", None)`
unchecked, so it is modelled as a `Json` value (default `""`). -/
structure WhatCMSResponse where
  url : String
  whatcms_link : Json := Json.str ""
  blog_cms : List String := []
  ecommerce_cms : List String := []
  programming_language : List String := []
  database : List String := []
  cdn : List String := []
  web_server : List String := []
  landing_page_builder_cms : List String := []
  operating_system : List String := []
  web_framework : List String := []
  whatcms_response : String := ""

/-- `WhatCMSResponse(url=url)`: a fresh record with all defaults. -/
def mkResponse (url : String) : WhatCMSResponse := { url := url }

/-- `WhatCMSClient._clean_tech_category` under its declared signature
(`technologies: List[str]`):
`"_".join(technologies).lower().replace("-", "").replace(" ", "_")`. -/
def clean_tech_category (technologies : List String) : String :=
  pyReplace (pyReplace (pyLower (String.intercalate "_" technologies)) "-" "") " " "_"

/-- `WhatCMSClient._clean_tech_category` as actually invoked on the untyped
payload value `category.get("categories", [])`, so the join may raise. -/
def clean_tech_category_dyn (technologies : Json) : Except String String :=
  match pyJoin "_" technologies with
  | Except.ok joined =>
    Except.ok (pyReplace (pyReplace (pyLower joined) "-" "") " " "_")
  | Except.error e => Except.error e

/-- The f-string `f"{name}{" " + version if version else ""}"` of
`_extract_category_data`: a truthy non-string version raises `TypeError`
from `" " + version`. -/
def mkTechString (name version : Json) : Except String String :=
  if pyTruthy version then
    match version with
    | Json.str v => Except.ok (pyStr name ++ (" " ++ v))
    | _ =>
      Except.error
        ("can only concatenate str (not \"" ++ pyTypeName version ++ "\") to str")
  else Except.ok (pyStr name ++ "")

/-- The if/elif chain of `_extract_category_data`: append `tech_string` to the
field named by `tech_category`, or leave the record unchanged when the key
matches none of the nine known categories. -/
def applyCategory (response_obj : WhatCMSResponse) (tech_category tech_string : String) :
    WhatCMSResponse :=
  if tech_category = "blog_cms" then
    { response_obj with blog_cms := response_obj.blog_cms ++ [tech_string] }
  else if tech_category = "ecommerce_cms" then
    { response_obj with ecommerce_cms := response_obj.ecommerce_cms ++ [tech_string] }
  else if tech_category = "programming_language" then
    { response_obj with programming_language := response_obj.programming_language ++ [tech_string] }
  else if tech_category = "database" then
    { response_obj with database := response_obj.database ++ [tech_string] }
  else if tech_category = "cdn" then
    { response_obj with cdn := response_obj.cdn ++ [tech_string] }
  else if tech_category = "web_server" then
    { response_obj with web_server := response_obj.web_server ++ [tech_string] }
  else if tech_category = "landing_page_builder_cms" then
    { response_obj with landing_page_builder_cms := response_obj.landing_page_builder_cms ++ [tech_string] }
  else if tech_category = "operating_system" then
    { response_obj with operating_system := response_obj.operating_system ++ [tech_string] }
  else if tech_category = "web_framework" then
    { response_obj with web_framework := response_obj.web_framework ++ [tech_string] }
  else response_obj

/-- `WhatCMSClient._extract_category_data`: reads `name`, `version` and
`categories` from one payload entry, normalizes the category, composes the
technology string and routes it; any step may raise. -/
def extract_category_data (response_obj : WhatCMSResponse) (category : Json) :
    Except String WhatCMSResponse := do
  let name ← pyGet category "name" Json.null
  let version ← pyGet category "version" Json.null
  let technologies ← pyGet category "categories" (Json.arr [])
  let tech_category ← clean_tech_category_dyn technologies
  let tech_string ← mkTechString name version
  pure (applyCategory response_obj tech_category tech_string)

/-- The `for category in categories:` loop of `_parse_response`, with the
record state threaded explicitly; the first exception stops the walk and is
reported together with the state reached so far. -/
def walkCategories (response_obj : WhatCMSResponse) :
    List Json → WhatCMSResponse × Option String
  | [] => (response_obj, none)
  | c :: rest =>
    match extract_category_data response_obj c with
    | Except.ok r2 => walkCategories r2 rest
    | Except.error e => (response_obj, some e)

/-- `WhatCMSClient._parse_response`: builds the record from the decoded JSON
body; any exception inside the `try` block leaves the fields set so far and
overwrites `whatcms_response` with `"Parse error: <message>"`. -/
def parse_response (url : String) (data : Json) : WhatCMSResponse :=
  let response_obj := mkResponse url
  match pyGet data "request" Json.null with
  | Except.error e => { response_obj with whatcms_response := "Parse error: " ++ e }
  | Except.ok req =>
    let response_obj := { response_obj with whatcms_link := req }
    match pyGet data "result" (Json.obj []) with
    | Except.error e => { response_obj with whatcms_response := "Parse error: " ++ e }
    | Except.ok result =>
      match result with
      | Json.obj rkvs =>
        let response_code := (rkvs.lookup "code").getD Json.null
        let response_result := (rkvs.lookup "msg").getD Json.null
        let response_obj :=
          { response_obj with
            whatcms_response := pyStr response_code ++ " - " ++ pyStr response_result }
        match pyGet data "results" (Json.arr []) with
        | Except.error e => { response_obj with whatcms_response := "Parse error: " ++ e }
        | Except.ok categories =>
          match categories with
          | Json.arr cats =>
            match walkCategories response_obj cats with
            | (r, none) => r
            | (r, some e) => { r with whatcms_response := "Parse error: " ++ e }
          | _ => response_obj
      | _ => { response_obj with whatcms_response := pyStr result }

/-- Outcome of `self.session.get(...)` for one URL: either a response with a
status code and a body whose JSON decoding may fail, or a raised
`requests.exceptions.RequestException`, or any other raised `Exception`. -/
inductive HttpOutcome where
  | ok (status : Nat) (body : Except String Json)
  | requestExn (msg : String)
  | otherExn (msg : String)

/-- Result of one `fetch_cms_data` call: the returned record, and whether
`time.sleep(self.rate_limit_delay)` was executed during the call. -/
structure FetchResult where
  record : WhatCMSResponse
  slept : Bool

/-- `WhatCMSClient.fetch_cms_data`: total on every outcome, mirroring the
source where `except Exception` catches every Exception-class failure.  The
`time.sleep` sits after `session.get` and before the status check, so it runs
exactly when the request itself returned a response. -/
def fetch_cms_data (outcome : HttpOutcome) (url : String) : FetchResult :=
  let response_obj := mkResponse url
  match outcome with
  | HttpOutcome.ok status body =>
    if status = 200 then
      match body with
      | Except.ok data => { record := parse_response url data, slept := true }
      | Except.error e =>
        { record := { response_obj with whatcms_response := "Error: " ++ e }, slept := true }
    else
      { record := { response_obj with whatcms_response := "Error: " ++ pyNatStr status },
        slept := true }
  | HttpOutcome.requestExn e =>
    { record := { response_obj with whatcms_response := "Error: " ++ e }, slept := false }
  | HttpOutcome.otherExn e =>
    { record := { response_obj with whatcms_response := "Error: " ++ e }, slept := false }

/-- `DataEnricher.enrich_urls`: the loop body appends the record returned by
`fetch_cms_data`; since `fetch_cms_data` is total, the `except`-skip branch
of the loop never executes.  The HTTP layer is abstracted as an oracle from
URL to outcome. -/
def enrich_urls (oracle : String → HttpOutcome) (urls : List String) :
    List WhatCMSResponse :=
  urls.foldl (fun results url => results ++ [(fetch_cms_data (oracle url) url).record]) []

/-- One output row: column names paired with cell values, in insertion order
(Python dicts preserve it, and `pd.DataFrame` takes the column order from it). -/
def Row : Type := List (String × Json)

/-- `DataEnricher._responses_to_dataframe`: each list field becomes
`", ".join(values) if values else ""`. -/
def responses_to_dataframe (responses : List WhatCMSResponse) : List Row :=
  responses.map (fun response =>
    [("url", Json.str response.url),
     ("whatcms_link", response.whatcms_link),
     ("Blog_CMS",
       Json.str (if response.blog_cms.isEmpty then "" else String.intercalate ", " response.blog_cms)),
     ("E-commerce_CMS",
       Json.str (if response.ecommerce_cms.isEmpty then "" else String.intercalate ", " response.ecommerce_cms)),
     ("Programming_Language",
       Json.str (if response.programming_language.isEmpty then "" else String.intercalate ", " response.programming_language)),
     ("Database",
       Json.str (if response.database.isEmpty then "" else String.intercalate ", " response.database)),
     ("CDN",
       Json.str (if response.cdn.isEmpty then "" else String.intercalate ", " response.cdn)),
     ("Web_Server",
       Json.str (if response.web_server.isEmpty then "" else String.intercalate ", " response.web_server)),
     ("Landing_Page_Builder_CMS",
       Json.str (if response.landing_page_builder_cms.isEmpty then "" else String.intercalate ", " response.landing_page_builder_cms)),
     ("Operating_System",
       Json.str (if response.operating_system.isEmpty then "" else String.intercalate ", " response.operating_system)),
     ("Web_Framework",
       Json.str (if response.web_framework.isEmpty then "" else String.intercalate ", " response.web_framework)),
     ("whatcms_response", Json.str response.whatcms_response)])

/-- The input table: named columns of string cells (only the URL column is
ever read by the core). -/
structure PyDataFrame where
  cols : List (String × List String)

/-- `df.columns`. -/
def PyDataFrame.columns (df : PyDataFrame) : List String := df.cols.map Prod.fst

/-- `DataEnricher.enrich_dataframe`, instrumented with the list of URLs for
which a fetch was issued (the network-call trace): raises `ValueError` when
the URL column is absent, before any fetch. -/
def enrich_dataframe (oracle : String → HttpOutcome) (df : PyDataFrame)
    (url_column : String) : Except String (List Row) × List String :=
  if url_column ∈ df.columns then
    let urls := (df.cols.lookup url_column).getD []
    let responses := enrich_urls oracle urls
    (Except.ok (responses_to_dataframe responses), urls)
  else
    (Except.error ("Column \x27" ++ url_column ++ "\x27 not found in ataFrame"), [])

/-- The nine recognized canonical category keys, in the order of the
source's if/elif chain. -/
def nineKeys : List String :=
  ["blog_cms", "ecommerce_cms", "programming_language", "database", "cdn",
   "web_server", "landing_page_builder_cms", "operating_system", "web_framework"]

/-- Field selector by canonical key (verification helper). -/
def getField (r : WhatCMSResponse) (k : String) : List String :=
  if k = "blog_cms" then r.blog_cms
  else if k = "ecommerce_cms" then r.ecommerce_cms
  else if k = "programming_language" then r.programming_language
  else if k = "database" then r.database
  else if k = "cdn" then r.cdn
  else if k = "web_server" then r.web_server
  else if k = "landing_page_builder_cms" then r.landing_page_builder_cms
  else if k = "operating_system" then r.operating_system
  else if k = "web_framework" then r.web_framework
  else []

/-- The canonical key and composed technology string of one payload entry
(the pair `_extract_category_data` computes before routing). -/
def keyTech (category : Json) : Except String (String × String) := do
  let name ← pyGet category "name" Json.null
  let version ← pyGet category "version" Json.null
  let technologies ← pyGet category "categories" (Json.arr [])
  let tech_category ← clean_tech_category_dyn technologies
  let tech_string ← mkTechString name version
  pure (tech_category, tech_string)

/-- Modelled from the spec: the category-normalization algorithm as §4.2
words it — join the raw category labels with underscores, lowercase the
result, strip all hyphens, and replace spaces with underscores. -/
def specCategoryNormalization (labels : List String) : String :=
  pyReplace (pyReplace (pyLower (String.intercalate "_" labels)) "-" "") " " "_"

/-- A payload entry carrying one technology of one raw category label,
used as concrete test data. -/
def sampleCategory (name label : String) : Json :=
  Json.obj [("name", Json.str name), ("version", Json.null),
            ("categories", Json.arr [Json.str label])]

/-- A decoded body listing two CDN technologies, used as concrete test data. -/
def twoCdnPayload : Json :=
  Json.obj [("request", Json.str "https://whatcms.org/?s=example.com"),
            ("result", Json.obj [("code", Json.num 200), ("msg", Json.str "Success")]),
            ("results", Json.arr [sampleCategory "Cloudflare" "CDN",
                                  sampleCategory "Fastly" "CDN"])]

/-- The record state of `_parse_response` just before the category loop, for
a body whose `request` field is `req` and whose `result` mapping is `rkvs`. -/
def parseBase (url : String) (req : Json) (rkvs : List (String × Json)) : WhatCMSResponse :=
  { mkResponse url with
    whatcms_link := req,
    whatcms_response :=
      pyStr ((rkvs.lookup "code").getD Json.null) ++ " - " ++
        pyStr ((rkvs.lookup "msg").getD Json.null) }

/-! ## Helper lemmas -/

/-- Appending one element always changes a list. -/
theorem append_singleton_ne {α : Type} (l : List α) (t : α) : l ++ [t] ≠ l := by
  intro h
  have := congrArg List.length h
  simp at this

set_option maxHeartbeats 1600000 in
/-- Routing a technology string touches the field named by the key and no
other: reading any recognized field after `applyCategory` either sees the
appended value (key match) or the unchanged value. -/
theorem getField_applyCategory (r : WhatCMSResponse) (kk t k : String)
    (hk : k ∈ nineKeys) :
    getField (applyCategory r kk t) k =
      if kk = k then getField r k ++ [t] else getField r k := by
  simp only [nineKeys, List.mem_cons, List.not_mem_nil, or_false] at hk
  rcases hk with rfl | rfl | rfl | rfl | rfl | rfl | rfl | rfl | rfl <;>
    (simp only [getField, applyCategory, reduceIte, String.reduceEq];
     split_ifs <;> simp_all)

/-- `_extract_category_data` factors through the key/tech pair it computes:
it fails exactly when the pair computation fails, and on success routes the
pair with `applyCategory`. -/
theorem extract_category_data_eq_keyTech (r : WhatCMSResponse) (c : Json) :
    extract_category_data r c =
      (keyTech c).map (fun kt => applyCategory r kt.1 kt.2) := by
  unfold extract_category_data keyTech
  cases pyGet c "name" Json.null <;> simp [Except.map, Except.bind, bind]
  cases pyGet c "version" Json.null <;> simp [Except.map, Except.bind, bind]
  cases pyGet c "categories" (Json.arr []) <;> simp [Except.map, Except.bind, bind]
  cases clean_tech_category_dyn _ <;> simp [Except.map, Except.bind, bind]
  cases mkTechString _ _ <;> simp [Except.map, Except.bind, bind, pure, Except.pure]

/-- A successful walk of the category loop accumulates, for any projection
that `applyCategory` treats as "append on key match", exactly the technology
strings of the entries with that key, in encounter order. -/
theorem walkCategories_ok_proj (proj : WhatCMSResponse → List String) (key : String)
    (hstep : ∀ (r : WhatCMSResponse) (kk t : String),
      proj (applyCategory r kk t) = if kk = key then proj r ++ [t] else proj r) :
    ∀ (cats : List Json) (r r2 : WhatCMSResponse),
      walkCategories r cats = (r2, none) →
      proj r2 = proj r ++
        (((cats.filterMap fun c => (keyTech c).toOption).filter
            fun kt => kt.1 = key).map Prod.snd) := by
  intro cats
  induction cats with
  | nil =>
    intro r r2 hw
    simp [walkCategories] at hw
    subst hw
    simp
  | cons c rest ih =>
    intro r r2 hw
    simp only [walkCategories] at hw
    rw [extract_category_data_eq_keyTech] at hw
    cases hkt : keyTech c with
    | error e => rw [hkt] at hw; simp [Except.map] at hw
    | ok kt =>
      rw [hkt] at hw
      simp only [Except.map] at hw
      have hrest := ih _ _ hw
      rw [hrest, hstep]
      by_cases hkk : kt.1 = key <;>
        simp [hkt, Except.toOption, List.filter_cons, hkk, List.append_assoc]

/-- If a prefix of the category list walks cleanly to state `r2` and the next
entry raises, the walk stops there: the remaining entries are never
processed and the state reached so far is kept alongside the message. -/
theorem walkCategories_stops (pre : List Json) :
    ∀ (r r2 : WhatCMSResponse) (c : Json) (post : List Json) (e : String),
      walkCategories r pre = (r2, none) →
      extract_category_data r2 c = Except.error e →
      walkCategories r (pre ++ c :: post) = (r2, some e) := by
  induction pre with
  | nil =>
    intro r r2 c post e hw hx
    simp [walkCategories] at hw
    subst hw
    simp [walkCategories, hx]
  | cons x rest ih =>
    intro r r2 c post e hw hx
    simp only [walkCategories] at hw ⊢
    cases hstep : extract_category_data r x with
    | ok r3 =>
      rw [hstep] at hw
      exact ih r3 r2 c post e hw hx
    | error e2 =>
      rw [hstep] at hw
      simp at hw

/-- For a body of the expected shape whose category walk fails, the parser
returns the walk's final state with `whatcms_response` overwritten by the
parse-error note. -/
theorem parse_response_walk_error (url : String) (req : Json)
    (rkvs : List (String × Json)) (cats : List Json) (r2 : WhatCMSResponse)
    (e : String)
    (hw : walkCategories (parseBase url req rkvs) cats = (r2, some e)) :
    parse_response url
        (Json.obj [("request", req), ("result", Json.obj rkvs),
                   ("results", Json.arr cats)])
      = { r2 with whatcms_response := "Parse error: " ++ e } := by
  unfold parseBase mkResponse at hw
  unfold parse_response mkResponse
  simp only [pyGet, List.lookup] at hw ⊢
  simp only [String.reduceBEq, String.reduceEq, reduceIte, Option.getD_some] at hw ⊢
  rw [hw]

/-- Joining a list of genuine strings never raises and yields the strings. -/
theorem pyJoinItems_map_str (labels : List String) :
    ∀ i : Nat, pyJoinItems i (labels.map Json.str) = Except.ok labels := by
  induction labels with
  | nil => intro i; rfl
  | cons l rest ih => intro i; simp [pyJoinItems, ih]

/-- On a payload `categories` value that is a list of strings, the dynamic
normalization agrees with `_clean_tech_category` under its declared
signature. -/
theorem clean_tech_category_dyn_labels (labels : List String) :
    clean_tech_category_dyn (Json.arr (labels.map Json.str))
      = Except.ok (clean_tech_category labels) := by
  simp [clean_tech_category_dyn, pyJoin, pyJoinItems_map_str, clean_tech_category]

/-- The orchestration loop body, folded over the URLs, appends exactly the
fetched record of each URL. -/
theorem foldl_append_record (f : String → WhatCMSResponse) :
    ∀ (urls : List String) (acc : List WhatCMSResponse),
      urls.foldl (fun results url => results ++ [f url]) acc = acc ++ urls.map f := by
  intro urls
  induction urls with
  | nil => simp
  | cons u rest ih => intro acc; simp [ih]

/-- Serializing a possibly-empty sequence with the guard of the source is
the same as joining it unconditionally. -/
theorem if_isEmpty_intercalate (l : List String) :
    (if l.isEmpty then "" else String.intercalate ", " l)
      = String.intercalate ", " l := by
  cases l <;> rfl

/-! ## Claims -/

/-- C1 (counterexample): on an HTTP 200 response whose body fails JSON
decoding, the returned record's status note is the generic
`"Error: <message>"`, not `"Parse error: <message>"` as the claim states. -/
theorem claim_C1_counterexample :
    (fetch_cms_data
        (HttpOutcome.ok 200 (Except.error "Expecting value: line 1 column 1 (char 0)"))
        "https://example.com").record.whatcms_response
      = "Error: Expecting value: line 1 column 1 (char 0)" ∧
    ¬ (fetch_cms_data
        (HttpOutcome.ok 200 (Except.error "Expecting value: line 1 column 1 (char 0)"))
        "https://example.com").record.whatcms_response
      = "Parse error: Expecting value: line 1 column 1 (char 0)" := by
  constructor <;> decide

/-- C1 (amended): for every HTTP response with status 200 whose body fails
JSON decoding, fetch returns a record whose status note is
`"Error: <message>"` (the generic exception format of the outer handler,
not the `"Parse error:"` format) with all nine technology fields empty and
the lookup link empty. -/
theorem claim_C1 (e url : String) :
    fetch_cms_data (HttpOutcome.ok 200 (Except.error e)) url
      = { record :=
            { url := url, whatcms_link := Json.str "", blog_cms := [],
              ecommerce_cms := [], programming_language := [], database := [],
              cdn := [], web_server := [], landing_page_builder_cms := [],
              operating_system := [], web_framework := [],
              whatcms_response := "Error: " ++ e },
          slept := true } := rfl

/-- C2 (counterexample): the input `["web-servers"]` does not normalize to
`web_servers`; hyphens are removed, not replaced, so it yields
`webservers`. -/
theorem claim_C2_counterexample :
    clean_tech_category ["web-servers"] = "webservers" ∧
    clean_tech_category ["web-servers"] ≠ "web_servers" := by
  constructor <;> decide

/-- C2 (amended): the category-normalization function maps
`["Web", "Servers"]` and `["Web Servers"]` to the canonical key
`web_servers`, while `["web-servers"]` maps to `webservers`. -/
theorem claim_C2 :
    clean_tech_category ["Web", "Servers"] = "web_servers" ∧
    clean_tech_category ["Web Servers"] = "web_servers" ∧
    clean_tech_category ["web-servers"] = "webservers" := by
  refine ⟨by decide, by decide, by decide⟩

/-- C3 (counterexample): on a transport-level failure (the request call
raising), the client does not pause for the rate-limit delay, contrary to
the claim that the pause happens on transport failures alike. -/
theorem claim_C3_counterexample :
    (fetch_cms_data
        (HttpOutcome.requestExn "HTTPSConnectionPool: Max retries exceeded")
        "https://example.com").slept = false := by
  decide

/-- C3 (amended): the client pauses for the rate-limit delay exactly when
the HTTP request itself returns a response — on status 200 (even if body
decoding later fails) and on any non-200 status alike — but when the
request raises (transport-level or any other exception from the request
call), the delay is skipped. -/
theorem claim_C3 :
    (∀ (status : Nat) (body : Except String Json) (url : String),
       (fetch_cms_data (HttpOutcome.ok status body) url).slept = true) ∧
    (∀ (e url : String),
       (fetch_cms_data (HttpOutcome.requestExn e) url).slept = false) ∧
    (∀ (e url : String),
       (fetch_cms_data (HttpOutcome.otherExn e) url).slept = false) := by
  refine ⟨?_, fun e url => rfl, fun e url => rfl⟩
  intro status body url
  by_cases h : status = 200 <;> cases body <;> simp [fetch_cms_data, h]

/-- C5: for every HTTP response with a status code other than 200, fetch
returns a record with status note `"Error: <status code>"`, all nine
technology fields empty and the lookup link empty. -/
theorem claim_C5 (status : Nat) (body : Except String Json) (url : String)
    (h : status ≠ 200) :
    fetch_cms_data (HttpOutcome.ok status body) url
      = { record :=
            { url := url, whatcms_link := Json.str "", blog_cms := [],
              ecommerce_cms := [], programming_language := [], database := [],
              cdn := [], web_server := [], landing_page_builder_cms := [],
              operating_system := [], web_framework := [],
              whatcms_response := "Error: " ++ pyNatStr status },
          slept := true } := by
  simp [fetch_cms_data, mkResponse, h]

/-- C5 (witness): instantiated at HTTP status 429, where the status note is
exactly `"Error: 429"`. -/
theorem claim_C5_witness :
    (429 : Nat) ≠ 200 ∧
    (fetch_cms_data (HttpOutcome.ok 429 (Except.ok Json.null))
        "https://example.com").record.whatcms_response = "Error: 429" := by
  refine ⟨by decide, ?_⟩
  rw [claim_C5 429 (Except.ok Json.null) "https://example.com" (by decide)]
  decide

/-- C9: when the designated URL column is absent from the input table, the
orchestrator raises the schema error at once and the network-call trace is
empty: no fetch is ever invoked. -/
theorem claim_C9 (oracle : String → HttpOutcome) (df : PyDataFrame)
    (url_column : String) (h : url_column ∉ df.columns) :
    enrich_dataframe oracle df url_column
      = (Except.error ("Column \x27" ++ url_column ++ "\x27 not found in ataFrame"),
         []) := by
  unfold enrich_dataframe
  rw [if_neg h]

/-- C9 (witness): a concrete table whose only column is `urls`, queried for
column `url`. -/
theorem claim_C9_witness :
    "url" ∉ PyDataFrame.columns ⟨[("urls", ["a.com"])]⟩ ∧
    enrich_dataframe (fun _ => HttpOutcome.requestExn "unreachable")
        ⟨[("urls", ["a.com"])]⟩ "url"
      = (Except.error "Column \x27url\x27 not found in ataFrame", []) := by
  refine ⟨by decide, ?_⟩
  exact claim_C9 (fun _ => HttpOutcome.requestExn "unreachable")
    ⟨[("urls", ["a.com"])]⟩ "url" (by decide)

/-- C10: fetch is total — every Exception-class failure of the request or
of body handling is converted into a returned record — so the enrichment
loop appends exactly one record per input URL, in input order, and its
skip-on-raise branch is never taken. -/
theorem claim_C10 (oracle : String → HttpOutcome) (urls : List String) :
    enrich_urls oracle urls
        = urls.map (fun url => (fetch_cms_data (oracle url) url).record) ∧
    (enrich_urls oracle urls).length = urls.length := by
  have h := foldl_append_record
    (fun url => (fetch_cms_data (oracle url) url).record) urls []
  constructor
  · simpa [enrich_urls] using h
  · simp [enrich_urls, h]

/-- C4: the normalization result equals the spec-worded composition (join
with underscores, lowercase, remove hyphens, spaces to underscores); the
dynamic payload-level call agrees with it on genuine string labels; and a
payload entry contributes to a record field if and only if the canonical
key equals one of the nine known keys, other keys leaving the record
unchanged. -/
theorem claim_C4 :
    (∀ labels : List String,
       clean_tech_category labels = specCategoryNormalization labels) ∧
    (∀ labels : List String,
       clean_tech_category_dyn (Json.arr (labels.map Json.str))
         = Except.ok (clean_tech_category labels)) ∧
    (∀ (r : WhatCMSResponse) (k t : String),
       k ∈ nineKeys → applyCategory r k t ≠ r) ∧
    (∀ (r : WhatCMSResponse) (k t : String),
       k ∉ nineKeys → applyCategory r k t = r) := by
  refine ⟨fun labels => rfl, clean_tech_category_dyn_labels, ?_, ?_⟩
  · intro r k t hmem hEq
    unfold applyCategory at hEq
    split_ifs at hEq with h1 h2 h3 h4 h5 h6 h7 h8 h9
    · exact append_singleton_ne _ _ (congrArg WhatCMSResponse.blog_cms hEq)
    · exact append_singleton_ne _ _ (congrArg WhatCMSResponse.ecommerce_cms hEq)
    · exact append_singleton_ne _ _ (congrArg WhatCMSResponse.programming_language hEq)
    · exact append_singleton_ne _ _ (congrArg WhatCMSResponse.database hEq)
    · exact append_singleton_ne _ _ (congrArg WhatCMSResponse.cdn hEq)
    · exact append_singleton_ne _ _ (congrArg WhatCMSResponse.web_server hEq)
    · exact append_singleton_ne _ _ (congrArg WhatCMSResponse.landing_page_builder_cms hEq)
    · exact append_singleton_ne _ _ (congrArg WhatCMSResponse.operating_system hEq)
    · exact append_singleton_ne _ _ (congrArg WhatCMSResponse.web_framework hEq)
    · simp [nineKeys] at hmem
      rcases hmem with rfl | rfl | rfl | rfl | rfl | rfl | rfl | rfl | rfl <;> simp_all
  · intro r k t hmem
    simp only [nineKeys, List.mem_cons, List.not_mem_nil, or_false] at hmem
    push_neg at hmem
    obtain ⟨n1, n2, n3, n4, n5, n6, n7, n8, n9⟩ := hmem
    unfold applyCategory
    rw [if_neg n1, if_neg n2, if_neg n3, if_neg n4, if_neg n5, if_neg n6,
        if_neg n7, if_neg n8, if_neg n9]

/-- C4 (witness): the spec composition at a concrete label list, a
recognized key (`cdn`) that contributes, and an unrecognized key
(`webservers`, the normalization of `["web-servers"]`) that is dropped
without error. -/
theorem claim_C4_witness :
    clean_tech_category ["Web", "Servers"]
        = specCategoryNormalization ["Web", "Servers"] ∧
    ("cdn" ∈ nineKeys ∧
      applyCategory (mkResponse "https://example.com") "cdn" "Cloudflare"
        ≠ mkResponse "https://example.com") ∧
    ("webservers" ∉ nineKeys ∧
      applyCategory (mkResponse "https://example.com") "webservers" "Apache"
        = mkResponse "https://example.com") := by
  refine ⟨claim_C4.1 ["Web", "Servers"], ⟨by decide, ?_⟩, ⟨by decide, ?_⟩⟩
  · exact claim_C4.2.2.1 (mkResponse "https://example.com") "cdn" "Cloudflare" (by decide)
  · exact claim_C4.2.2.2 (mkResponse "https://example.com") "webservers" "Apache" (by decide)

/-- C6: a clean category walk accumulates, in every recognized field, the
composed technology strings of the entries whose key names that field, in
encounter order and never overwriting; concretely, the two-CDN payload
parses to a `cdn` sequence of length two. -/
theorem claim_C6 :
    (∀ k, k ∈ nineKeys →
       ∀ (cats : List Json) (r r2 : WhatCMSResponse),
         walkCategories r cats = (r2, none) →
         getField r2 k = getField r k ++
           (((cats.filterMap fun c => (keyTech c).toOption).filter
               fun kt => kt.1 = k).map Prod.snd)) ∧
    (parse_response "https://example.com" twoCdnPayload).cdn
        = ["Cloudflare", "Fastly"] ∧
    (parse_response "https://example.com" twoCdnPayload).cdn.length = 2 := by
  refine ⟨?_, by decide, by decide⟩
  intro k hk cats r r2 hw
  exact walkCategories_ok_proj (fun r => getField r k) k
    (fun r kk t => getField_applyCategory r kk t k hk) cats r r2 hw

/-- C6 (witness): the accumulation law instantiated at key `cdn` on a walk
over two CDN entries. -/
theorem claim_C6_witness :
    "cdn" ∈ nineKeys ∧
    getField
        (walkCategories (mkResponse "https://example.com")
          [sampleCategory "Cloudflare" "CDN", sampleCategory "Fastly" "CDN"]).1 "cdn"
      = getField (mkResponse "https://example.com") "cdn" ++
          ((([sampleCategory "Cloudflare" "CDN",
              sampleCategory "Fastly" "CDN"].filterMap
                fun c => (keyTech c).toOption).filter
              fun kt => kt.1 = "cdn").map Prod.snd) := by
  refine ⟨by decide, ?_⟩
  exact claim_C6.1 "cdn" (by decide)
    [sampleCategory "Cloudflare" "CDN", sampleCategory "Fastly" "CDN"]
    (mkResponse "https://example.com") _ (by rfl)

/-- C7: if some entry of the category walk raises, the walk stops there,
keeping the state (hence the technology values) accumulated before the
failure; and the parser then returns that state with `whatcms_response`
overwritten by `"Parse error: <message>"`. -/
theorem claim_C7 :
    (∀ (pre : List Json) (r r2 : WhatCMSResponse) (c : Json) (post : List Json)
       (e : String),
       walkCategories r pre = (r2, none) →
       extract_category_data r2 c = Except.error e →
       walkCategories r (pre ++ c :: post) = (r2, some e)) ∧
    (∀ (url : String) (req : Json) (rkvs : List (String × Json))
       (cats : List Json) (r2 : WhatCMSResponse) (e : String),
       walkCategories (parseBase url req rkvs) cats = (r2, some e) →
       parse_response url
           (Json.obj [("request", req), ("result", Json.obj rkvs),
                      ("results", Json.arr cats)])
         = { r2 with whatcms_response := "Parse error: " ++ e }) :=
  ⟨fun pre r r2 c post e hw hx => walkCategories_stops pre r r2 c post e hw hx,
   fun url req rkvs cats r2 e hw => parse_response_walk_error url req rkvs cats r2 e hw⟩

/-- C7 (witness): a payload whose second entry is the string `"oops"`
(whose `.get` raises): the walk keeps the CDN value appended for the first
entry, and the parser reports the parse error on top of that state. -/
theorem claim_C7_witness :
    walkCategories
        (parseBase "https://example.com" (Json.str "L")
          [("code", Json.num 200), ("msg", Json.str "Success")])
        ([sampleCategory "Cloudflare" "CDN"] ++ Json.str "oops" :: [])
      = ({ url := "https://example.com", whatcms_link := Json.str "L",
           cdn := ["Cloudflare"], whatcms_response := "200 - Success" },
         some "\x27str\x27 object has no attribute \x27get\x27") ∧
    parse_response "https://example.com"
        (Json.obj [("request", Json.str "L"),
                   ("result",
                     Json.obj [("code", Json.num 200), ("msg", Json.str "Success")]),
                   ("results",
                     Json.arr [sampleCategory "Cloudflare" "CDN", Json.str "oops"])])
      = { url := "https://example.com", whatcms_link := Json.str "L",
          cdn := ["Cloudflare"],
          whatcms_response :=
            "Parse error: \x27str\x27 object has no attribute \x27get\x27" } := by
  constructor
  · exact claim_C7.1 [sampleCategory "Cloudflare" "CDN"]
      (parseBase "https://example.com" (Json.str "L")
        [("code", Json.num 200), ("msg", Json.str "Success")])
      { url := "https://example.com", whatcms_link := Json.str "L",
        cdn := ["Cloudflare"], whatcms_response := "200 - Success" }
      (Json.str "oops") [] "\x27str\x27 object has no attribute \x27get\x27"
      (by rfl) (by rfl)
  · exact claim_C7.2 "https://example.com" (Json.str "L")
      [("code", Json.num 200), ("msg", Json.str "Success")]
      [sampleCategory "Cloudflare" "CDN", Json.str "oops"]
      { url := "https://example.com", whatcms_link := Json.str "L",
        cdn := ["Cloudflare"], whatcms_response := "200 - Success" }
      "\x27str\x27 object has no attribute \x27get\x27" (by rfl)

/-- C8: flattening serializes each multi-valued field as the
comma-and-space-joined string of its values, with columns in the fixed
order url, whatcms_link, the nine technology columns, then
whatcms_response; `["Apache", "Nginx"]` joins to `"Apache, Nginx"` and the
empty sequence to `""`. -/
theorem claim_C8 :
    (∀ responses : List WhatCMSResponse,
       responses_to_dataframe responses
         = responses.map (fun r =>
             [("url", Json.str r.url),
              ("whatcms_link", r.whatcms_link),
              ("Blog_CMS", Json.str (String.intercalate ", " r.blog_cms)),
              ("E-commerce_CMS", Json.str (String.intercalate ", " r.ecommerce_cms)),
              ("Programming_Language",
                Json.str (String.intercalate ", " r.programming_language)),
              ("Database", Json.str (String.intercalate ", " r.database)),
              ("CDN", Json.str (String.intercalate ", " r.cdn)),
              ("Web_Server", Json.str (String.intercalate ", " r.web_server)),
              ("Landing_Page_Builder_CMS",
                Json.str (String.intercalate ", " r.landing_page_builder_cms)),
              ("Operating_System",
                Json.str (String.intercalate ", " r.operating_system)),
              ("Web_Framework", Json.str (String.intercalate ", " r.web_framework)),
              ("whatcms_response", Json.str r.whatcms_response)])) ∧
    String.intercalate ", " ["Apache", "Nginx"] = "Apache, Nginx" ∧
    String.intercalate ", " ([] : List String) = "" := by
  refine ⟨?_, by decide, by decide⟩
  intro responses
  unfold responses_to_dataframe
  simp only [if_isEmpty_intercalate]
